import Mathlib

/-!
Verification of the PTY session registry in `src/src-tauri/src/pty_manager.rs`.

The Rust module keeps three process-wide keyed stores behind independent
mutexes: I/O handles (`PTY_SESSIONS`), metadata (`PTY_META`) and resize
handles (`PTY_MASTERS`).  We embed the registry shallowly:

* each `HashMap<String, _>` becomes an association list with the same
  insert/remove/lookup behaviour;
* each mutex becomes a `...Poisoned : Bool` flag on the state — `Mutex::lock`
  in the source fails exactly when the mutex is poisoned, and every operation
  branches on that flag exactly where the source calls `.lock()`;
* every native effect (openpty, spawn_command, write_all, flush, reader.read,
  resize) becomes a field of an environment record giving that call's outcome,
  so an operation is a pure function of the environment, the state and its
  arguments, returning the Rust `Result` (as `Except String`) together with
  the updated state.
-/

set_option autoImplicit false

namespace PtyManager

/-- Terminal geometry, mirroring `portable_pty::PtySize` (u16 fields). -/
structure PtySize where
  rows : Nat
  cols : Nat
  pixel_width : Nat
  pixel_height : Nat
  deriving DecidableEq, Repr

/-- Session metadata, mirroring `struct SessionMeta { cwd, command }`. -/
structure SessionMeta where
  cwd : String
  command : Option String
  deriving DecidableEq, Repr

/-- State of one session's I/O handles, mirroring the Rust `SessionIO` value
behind its `Arc<Mutex<_>>`: `written` is the byte sequence accumulated on the
writer stream, and `ioPoisoned` records whether that per-session mutex is
poisoned. -/
structure SessionIoState where
  written : List UInt8
  ioPoisoned : Bool
  deriving DecidableEq, Repr

/-- The resize handle: a `MasterPty` remembering its current geometry. -/
structure MasterState where
  size : PtySize
  deriving DecidableEq, Repr

/-- Association-list lookup with `HashMap::get` behaviour. -/
def mapLookup {α : Type} (m : List (String × α)) (k : String) : Option α :=
  match m with
  | [] => none
  | (k', v) :: rest => if k' = k then some v else mapLookup rest k

/-- Association-list insert with `HashMap::insert` behaviour (replace on an
existing key). -/
def mapInsert {α : Type} (m : List (String × α)) (k : String) (v : α) :
    List (String × α) :=
  match m with
  | [] => [(k, v)]
  | (k', v') :: rest =>
    if k' = k then (k, v) :: rest else (k', v') :: mapInsert rest k v

/-- Association-list removal with `HashMap::remove` behaviour. -/
def mapRemove {α : Type} (m : List (String × α)) (k : String) :
    List (String × α) :=
  match m with
  | [] => []
  | (k', v) :: rest =>
    if k' = k then mapRemove rest k else (k', v) :: mapRemove rest k

/-- Membership test with `HashMap::contains_key` behaviour. -/
def mapContains {α : Type} (m : List (String × α)) (k : String) : Bool :=
  (mapLookup m k).isSome

/-- Key enumeration with `HashMap::keys` behaviour. -/
def mapKeys {α : Type} (m : List (String × α)) : List String :=
  m.map (fun p => p.1)

/-- The whole registry: the three global stores and their three lock states. -/
structure RegistryState where
  sessions : List (String × SessionIoState)
  meta : List (String × SessionMeta)
  masters : List (String × MasterState)
  sessionsPoisoned : Bool
  metaPoisoned : Bool
  mastersPoisoned : Bool
  deriving DecidableEq, Repr

/-- The error message `format!("PTY session '{}' not found", id)`. -/
def notFoundMsg (id : String) : String :=
  "PTY session '" ++ id ++ "' not found"

/-- True when a Rust `Result` is the `Err` variant. -/
def isError {α : Type} (r : Except String α) : Bool :=
  match r with
  | .error _ => true
  | .ok _ => false

/-- The hard-coded initial geometry passed to `openpty` in `create_session`:
`PtySize { rows: 24, cols: 80, pixel_width: 0, pixel_height: 0 }`. -/
def initialPtySize : PtySize := ⟨24, 80, 0, 0⟩

/-- Outcomes of the native calls made by `create_session`: `openpty` (as a
function of the requested size), the `SHELL` environment variable,
`spawn_command` (as a function of the resolved shell and the cwd),
`try_clone_reader` and `take_writer`. -/
structure CreateEnv where
  openPty : PtySize → Except String Unit
  shellVar : Option String
  spawn : String → String → Except String Unit
  cloneReader : Except String Unit
  takeWriter : Except String Unit

/-- The shell resolution in `create_session`:
`shell.unwrap_or_else(|| std::env::var("SHELL").unwrap_or_else(|_| "/bin/bash".to_string()))`. -/
def resolveShell (env : CreateEnv) (shell : Option String) : String :=
  shell.getD (env.shellVar.getD "/bin/bash")

/-- Embedding of `create_session`.  Each early `?` return leaves the state as
it stands at that point; the three store inserts happen sequentially, each
guarded by its own lock acquisition. -/
def create_session (env : CreateEnv) (st : RegistryState)
    (id cwd : String) (shell : Option String) :
    Except String Unit × RegistryState :=
  match env.openPty initialPtySize with
  | .error e => (.error ("Failed to open PTY: " ++ e), st)
  | .ok _ =>
    let shell_cmd := resolveShell env shell
    match env.spawn shell_cmd cwd with
    | .error e => (.error ("Failed to spawn shell: " ++ e), st)
    | .ok _ =>
      match env.cloneReader with
      | .error e => (.error ("Failed to clone reader: " ++ e), st)
      | .ok _ =>
        match env.takeWriter with
        | .error e => (.error ("Failed to take writer: " ++ e), st)
        | .ok _ =>
          if st.sessionsPoisoned then
            (.error "Failed to acquire lock: poisoned", st)
          else
            let st1 := { st with
              sessions := mapInsert st.sessions id ⟨[], false⟩ }
            if st.metaPoisoned then
              (.error "Failed to acquire meta lock: poisoned", st1)
            else
              let st2 := { st1 with
                meta := mapInsert st1.meta id ⟨cwd, some shell_cmd⟩ }
              if st.mastersPoisoned then
                (.error "Failed to acquire masters lock: poisoned", st2)
              else
                (.ok (), { st2 with
                  masters := mapInsert st2.masters id ⟨initialPtySize⟩ })

/-- Outcomes of the native calls made by `write_to_session`: `write_all` and
`flush` on the session's writer. -/
structure WriteEnv where
  ioWrite : Except String Unit
  ioFlush : Except String Unit

/-- Embedding of `write_to_session`: acquire the sessions lock, look the id
up, acquire the per-session I/O lock, `write_all(data)`, then `flush()`.  A
successful `write_all` appends `data` to the writer stream even when the
subsequent flush fails. -/
def write_to_session (env : WriteEnv) (st : RegistryState)
    (id : String) (data : List UInt8) :
    Except String Unit × RegistryState :=
  if st.sessionsPoisoned then
    (.error "Failed to acquire lock: poisoned", st)
  else
    match mapLookup st.sessions id with
    | none => (.error (notFoundMsg id), st)
    | some io =>
      if io.ioPoisoned then
        (.error "Failed to acquire IO lock: poisoned", st)
      else
        match env.ioWrite with
        | .error e => (.error ("Failed to write to PTY: " ++ e), st)
        | .ok _ =>
          let st1 := { st with
            sessions := mapInsert st.sessions id
              { io with written := io.written ++ data } }
          match env.ioFlush with
          | .error e => (.error ("Failed to flush PTY: " ++ e), st1)
          | .ok _ => (.ok (), st1)

/-- Outcomes governing `read_from_session`: `arrives` is whether the helper
thread's result reaches the channel within the 100 ms `recv_timeout`, and
`nativeRead` is the underlying `reader.read` outcome — on success, the bytes
the read deposited in the 8 KiB buffer (at most 8192 by the `Read` contract),
which `buffer.truncate(n)` then returns exactly. -/
structure ReadEnv where
  arrives : Bool
  nativeRead : Except String (List UInt8)

/-- Embedding of `read_from_session`: acquire the sessions lock, look the id
up (cloning the `Arc`), then race the helper thread's result against the
100 ms timeout; on timeout return `Ok(Vec::new())`.  The helper itself first
takes the per-session I/O lock, then performs the bounded read. -/
def read_from_session (env : ReadEnv) (st : RegistryState) (id : String) :
    Except String (List UInt8) × RegistryState :=
  if st.sessionsPoisoned then
    (.error "Failed to acquire lock: poisoned", st)
  else
    match mapLookup st.sessions id with
    | none => (.error (notFoundMsg id), st)
    | some io =>
      let helperResult : Except String (List UInt8) :=
        if io.ioPoisoned then .error "Lock error: poisoned"
        else
          match env.nativeRead with
          | .ok bs => .ok bs
          | .error e => .error ("Read error: " ++ e)
      if env.arrives then (helperResult, st)
      else (.ok [], st)

/-- Outcome of the native `master.resize` call. -/
structure ResizeEnv where
  nativeResize : Except String Unit

/-- Embedding of `resize_session`: acquire the masters lock, look the id up,
and resize to `PtySize { rows, cols, pixel_width: 0, pixel_height: 0 }`. -/
def resize_session (env : ResizeEnv) (st : RegistryState)
    (id : String) (cols rows : Nat) :
    Except String Unit × RegistryState :=
  if st.mastersPoisoned then
    (.error "Failed to acquire masters lock: poisoned", st)
  else
    match mapLookup st.masters id with
    | none => (.error (notFoundMsg id), st)
    | some _ =>
      match env.nativeResize with
      | .error e => (.error ("Failed to resize PTY: " ++ e), st)
      | .ok _ =>
        (.ok (), { st with
          masters := mapInsert st.masters id ⟨⟨rows, cols, 0, 0⟩⟩ })

/-- Embedding of `kill_session`: remove the id from each of the three stores
in turn, each removal guarded by its own lock acquisition; removal of an
absent key is a no-op and never an error. -/
def kill_session (st : RegistryState) (id : String) :
    Except String Unit × RegistryState :=
  if st.sessionsPoisoned then
    (.error "Failed to acquire lock: poisoned", st)
  else
    let st1 := { st with sessions := mapRemove st.sessions id }
    if st.metaPoisoned then
      (.error "Failed to acquire meta lock: poisoned", st1)
    else
      let st2 := { st1 with meta := mapRemove st1.meta id }
      if st.mastersPoisoned then
        (.error "Failed to acquire masters lock: poisoned", st2)
      else
        (.ok (), { st2 with masters := mapRemove st2.masters id })

/-- Embedding of `list_sessions`: the keys of the sessions store, or the
empty vector when the lock is poisoned (`unwrap_or_default`). -/
def list_sessions (st : RegistryState) : List String :=
  if st.sessionsPoisoned then [] else mapKeys st.sessions

/-- Embedding of `session_exists`: membership in the sessions store, or
`false` when the lock is poisoned (`unwrap_or(false)`). -/
def session_exists (st : RegistryState) (id : String) : Bool :=
  if st.sessionsPoisoned then false else mapContains st.sessions id

/-- Embedding of `get_session_info`: metadata lookup, or `None` when the
meta lock is poisoned (`.ok().and_then(...)`). -/
def get_session_info (st : RegistryState) (id : String) :
    Option (String × Option String) :=
  if st.metaPoisoned then none
  else (mapLookup st.meta id).map (fun m => (m.cwd, m.command))

/-! Association-list lemmas used by the claim proofs. -/

theorem mapLookup_remove_self {α : Type} (m : List (String × α)) (k : String) :
    mapLookup (mapRemove m k) k = none := by
  induction m with
  | nil => rfl
  | cons hd tl ih =>
    obtain ⟨k', v⟩ := hd
    by_cases h : k' = k
    · simpa [mapRemove, h] using ih
    · simpa [mapRemove, mapLookup, h] using ih

theorem mapLookup_remove_ne {α : Type} (m : List (String × α)) (k k' : String)
    (h : k' ≠ k) : mapLookup (mapRemove m k) k' = mapLookup m k' := by
  induction m with
  | nil => rfl
  | cons hd tl ih =>
    obtain ⟨k₀, v⟩ := hd
    by_cases hk : k₀ = k
    · subst hk
      have hne : k₀ ≠ k' := fun hc => h hc.symm
      simp [mapRemove, mapLookup, hne, ih]
    · by_cases hk' : k₀ = k'
      · simp [mapRemove, mapLookup, hk, hk', h]
      · simp [mapRemove, mapLookup, hk, hk', ih]

theorem mapContains_remove_self {α : Type} (m : List (String × α))
    (k : String) : mapContains (mapRemove m k) k = false := by
  simp [mapContains, mapLookup_remove_self]

theorem mapLookup_insert_self {α : Type} (m : List (String × α)) (k : String)
    (v : α) : mapLookup (mapInsert m k v) k = some v := by
  induction m with
  | nil => simp [mapInsert, mapLookup]
  | cons hd tl ih =>
    obtain ⟨k₀, v₀⟩ := hd
    by_cases hk : k₀ = k
    · simp [mapInsert, mapLookup, hk]
    · simp [mapInsert, mapLookup, hk, ih]

theorem mapLookup_insert_ne {α : Type} (m : List (String × α)) (k k' : String)
    (v : α) (h : k' ≠ k) :
    mapLookup (mapInsert m k v) k' = mapLookup m k' := by
  induction m with
  | nil => simp [mapInsert, mapLookup, Ne.symm h]
  | cons hd tl ih =>
    obtain ⟨k₀, v₀⟩ := hd
    by_cases hk : k₀ = k
    · simp [mapInsert, mapLookup, hk, Ne.symm h]
    · by_cases hk' : k₀ = k'
      · simp [mapInsert, mapLookup, hk, hk', h]
      · simp [mapInsert, mapLookup, hk, hk', ih]

/-! Claim theorems. -/

/-- C1. For every session id absent from the corresponding store (and with
that store's lock acquirable, so that the lookup is reached),
`write_to_session`, `read_from_session` and `resize_session` each return the
error `format!("PTY session '{}' not found", id)` naming the missing session,
never success. -/
theorem unknown_id_returns_not_found (st : RegistryState) (id : String)
    (data : List UInt8) (wenv : WriteEnv) (renv : ReadEnv) (senv : ResizeEnv)
    (cols rows : Nat)
    (hs : st.sessionsPoisoned = false)
    (hm : st.mastersPoisoned = false)
    (habsent : mapLookup st.sessions id = none)
    (habsent' : mapLookup st.masters id = none) :
    (write_to_session wenv st id data).1 = .error (notFoundMsg id) ∧
    (read_from_session renv st id).1 = .error (notFoundMsg id) ∧
    (resize_session senv st id cols rows).1 = .error (notFoundMsg id) := by
  refine ⟨?_, ?_, ?_⟩
  · simp [write_to_session, hs, habsent]
  · simp [read_from_session, hs, habsent]
  · simp [resize_session, hm, habsent']

/-- Witness for C1 at a concrete input: the completely empty registry and the
id "s1". -/
theorem unknown_id_returns_not_found_witness :
    (write_to_session ⟨.ok (), .ok ()⟩ ⟨[], [], [], false, false, false⟩
        "s1" [104]).1 = .error (notFoundMsg "s1") ∧
    (read_from_session ⟨true, .ok []⟩ ⟨[], [], [], false, false, false⟩
        "s1").1 = .error (notFoundMsg "s1") ∧
    (resize_session ⟨.ok ()⟩ ⟨[], [], [], false, false, false⟩
        "s1" 120 40).1 = .error (notFoundMsg "s1") :=
  unknown_id_returns_not_found ⟨[], [], [], false, false, false⟩ "s1" [104]
    ⟨.ok (), .ok ()⟩ ⟨true, .ok []⟩ ⟨.ok ()⟩ 120 40 rfl rfl rfl rfl

/-- C2. With the three store locks acquirable, `kill_session` is idempotent:
it succeeds on every id (also never-created or already-killed ones), a second
consecutive call succeeds as well, and afterwards `session_exists` answers
`false`. -/
theorem kill_session_idempotent (st : RegistryState) (id : String)
    (hs : st.sessionsPoisoned = false)
    (hm : st.metaPoisoned = false)
    (ha : st.mastersPoisoned = false) :
    (kill_session st id).1 = .ok () ∧
    (kill_session (kill_session st id).2 id).1 = .ok () ∧
    session_exists (kill_session st id).2 id = false := by
  refine ⟨?_, ?_, ?_⟩
  · simp [kill_session, hs, hm, ha]
  · simp [kill_session, hs, hm, ha]
  · simp [kill_session, hs, hm, ha, session_exists, mapContains_remove_self]

/-- Witness for C2 at a concrete input: a registry holding session "s1",
killed under the id "s1", and also the never-created id "s2". -/
theorem kill_session_idempotent_witness :
    (kill_session ⟨[("s1", ⟨[], false⟩)], [("s1", ⟨"/tmp", some "/bin/bash"⟩)],
        [("s1", ⟨initialPtySize⟩)], false, false, false⟩ "s1").1 = .ok () ∧
      (kill_session (kill_session ⟨[("s1", ⟨[], false⟩)],
          [("s1", ⟨"/tmp", some "/bin/bash"⟩)], [("s1", ⟨initialPtySize⟩)],
          false, false, false⟩ "s1").2 "s1").1 = .ok () ∧
      session_exists (kill_session ⟨[("s1", ⟨[], false⟩)],
          [("s1", ⟨"/tmp", some "/bin/bash"⟩)], [("s1", ⟨initialPtySize⟩)],
          false, false, false⟩ "s1").2 "s1" = false :=
  kill_session_idempotent ⟨[("s1", ⟨[], false⟩)],
    [("s1", ⟨"/tmp", some "/bin/bash"⟩)], [("s1", ⟨initialPtySize⟩)],
    false, false, false⟩ "s1" rfl rfl rfl

/-- C3. For every registered session, when the helper thread's result does
not arrive within the 100 ms `recv_timeout`, `read_from_session` returns
`Ok(Vec::new())` — success with an empty byte sequence, never an error. -/
theorem read_timeout_is_empty_success (st : RegistryState) (id : String)
    (io : SessionIoState) (renv : ReadEnv)
    (hs : st.sessionsPoisoned = false)
    (hreg : mapLookup st.sessions id = some io)
    (htimeout : renv.arrives = false) :
    (read_from_session renv st id).1 = .ok [] := by
  simp [read_from_session, hs, hreg, htimeout]

/-- Witness for C3 at a concrete input: session "s1" is registered, the
helper's result never arrives in time, and the call returns `Ok([])` even
though the underlying read would have failed. -/
theorem read_timeout_is_empty_success_witness :
    (read_from_session ⟨false, .error "stalled"⟩
        ⟨[("s1", ⟨[], false⟩)], [], [], false, false, false⟩ "s1").1 =
      .ok [] :=
  read_timeout_is_empty_success
    ⟨[("s1", ⟨[], false⟩)], [], [], false, false, false⟩ "s1" ⟨[], false⟩
    ⟨false, .error "stalled"⟩ rfl rfl rfl

/-- C5. With the native steps succeeding and the sessions lock acquirable but
the meta lock poisoned, `create_session` fails after the I/O-handle insert has
completed, and performs no rollback: the id stays present in the sessions
store while absent from the meta and masters stores. -/
theorem create_session_no_rollback (st : RegistryState) (id cwd : String)
    (shell : Option String) (env : CreateEnv)
    (hs : st.sessionsPoisoned = false)
    (hmp : st.metaPoisoned = true)
    (hopen : env.openPty initialPtySize = .ok ())
    (hspawn : env.spawn (resolveShell env shell) cwd = .ok ())
    (hr : env.cloneReader = .ok ())
    (hw : env.takeWriter = .ok ())
    (hmeta : mapLookup st.meta id = none)
    (hmast : mapLookup st.masters id = none) :
    isError (create_session env st id cwd shell).1 = true ∧
    mapContains (create_session env st id cwd shell).2.sessions id = true ∧
    mapContains (create_session env st id cwd shell).2.meta id = false ∧
    mapContains (create_session env st id cwd shell).2.masters id = false := by
  refine ⟨?_, ?_, ?_, ?_⟩ <;>
    simp [create_session, hopen, hspawn, hr, hw, hs, hmp, isError,
      mapContains, mapLookup_insert_self, hmeta, hmast]

/-- Witness for C5 at a concrete input: empty stores, sessions lock fine,
meta lock poisoned, every native step succeeding. -/
theorem create_session_no_rollback_witness :
    isError (create_session
        ⟨fun _ => .ok (), none, fun _ _ => .ok (), .ok (), .ok ()⟩
        ⟨[], [], [], false, true, false⟩ "s1" "/tmp" none).1 = true ∧
      mapContains (create_session
        ⟨fun _ => .ok (), none, fun _ _ => .ok (), .ok (), .ok ()⟩
        ⟨[], [], [], false, true, false⟩ "s1" "/tmp" none).2.sessions
        "s1" = true ∧
      mapContains (create_session
        ⟨fun _ => .ok (), none, fun _ _ => .ok (), .ok (), .ok ()⟩
        ⟨[], [], [], false, true, false⟩ "s1" "/tmp" none).2.meta
        "s1" = false ∧
      mapContains (create_session
        ⟨fun _ => .ok (), none, fun _ _ => .ok (), .ok (), .ok ()⟩
        ⟨[], [], [], false, true, false⟩ "s1" "/tmp" none).2.masters
        "s1" = false :=
  create_session_no_rollback ⟨[], [], [], false, true, false⟩ "s1" "/tmp"
    none ⟨fun _ => .ok (), none, fun _ _ => .ok (), .ok (), .ok ()⟩
    rfl rfl rfl rfl rfl rfl rfl rfl

/-- C6. When the helper's result arrives in time and the underlying read
succeeds producing `bs` (at most 8192 bytes, the 8 KiB buffer's capacity, by
the `Read` contract), `read_from_session` returns exactly `bs` — the bytes
the read produced, truncated to the actual count — and in particular a
zero-length read comes back as the empty result; the returned sequence has
length at most 8192. -/
theorem read_success_returns_read_bytes (st : RegistryState) (id : String)
    (io : SessionIoState) (renv : ReadEnv) (bs : List UInt8)
    (hs : st.sessionsPoisoned = false)
    (hreg : mapLookup st.sessions id = some io)
    (hio : io.ioPoisoned = false)
    (harr : renv.arrives = true)
    (hread : renv.nativeRead = .ok bs)
    (hbound : bs.length ≤ 8192) :
    (read_from_session renv st id).1 = .ok bs ∧
    ∀ out : List UInt8, (read_from_session renv st id).1 = .ok out →
      out.length ≤ 8192 := by
  have hmain : (read_from_session renv st id).1 = .ok bs := by
    simp [read_from_session, hs, hreg, hio, harr, hread]
  refine ⟨hmain, ?_⟩
  intro out hout
  rw [hmain] at hout
  cases hout
  exact hbound

/-- Witness for C6 at a concrete input: session "s1" registered, helper
arriving in time with the two bytes "hi". -/
theorem read_success_returns_read_bytes_witness :
    (read_from_session ⟨true, .ok [104, 105]⟩
        ⟨[("s1", ⟨[], false⟩)], [], [], false, false, false⟩ "s1").1 =
      .ok [104, 105] ∧
    ([104, 105] : List UInt8).length ≤ 8192 :=
  ⟨(read_success_returns_read_bytes
      ⟨[("s1", ⟨[], false⟩)], [], [], false, false, false⟩ "s1" ⟨[], false⟩
      ⟨true, .ok [104, 105]⟩ [104, 105] rfl rfl rfl rfl rfl (by decide)).1,
    by decide⟩

/-- C7. On a fully successful creation, the resolved shell is the `shell`
argument when present, else the `SHELL` environment variable, else
"/bin/bash"; that resolved string is stored as the session's command
metadata, and the master handle is opened and stored with the fixed initial
geometry of 24 rows × 80 columns and zero pixel dimensions. -/
theorem create_session_shell_and_geometry (st : RegistryState)
    (id cwd : String) (shell : Option String) (env : CreateEnv)
    (hs : st.sessionsPoisoned = false)
    (hm : st.metaPoisoned = false)
    (ha : st.mastersPoisoned = false)
    (hopen : env.openPty initialPtySize = .ok ())
    (hspawn : env.spawn (resolveShell env shell) cwd = .ok ())
    (hr : env.cloneReader = .ok ())
    (hw : env.takeWriter = .ok ()) :
    (create_session env st id cwd shell).1 = .ok () ∧
    mapLookup (create_session env st id cwd shell).2.meta id =
      some ⟨cwd, some (resolveShell env shell)⟩ ∧
    mapLookup (create_session env st id cwd shell).2.masters id =
      some ⟨initialPtySize⟩ ∧
    resolveShell env shell =
      (match shell with
       | some s => s
       | none =>
         match env.shellVar with
         | some v => v
         | none => "/bin/bash") ∧
    initialPtySize = ⟨24, 80, 0, 0⟩ := by
  refine ⟨?_, ?_, ?_, ?_, rfl⟩
  · simp [create_session, hopen, hspawn, hr, hw, hs, hm, ha]
  · simp [create_session, hopen, hspawn, hr, hw, hs, hm, ha,
      mapLookup_insert_self]
  · simp [create_session, hopen, hspawn, hr, hw, hs, hm, ha,
      mapLookup_insert_self]
  · cases shell with
    | none =>
      cases henv : env.shellVar with
      | none => simp [resolveShell, henv]
      | some v => simp [resolveShell, henv]
    | some s => simp [resolveShell]

/-- Witness for C7 at a concrete input: no `shell` argument and no `SHELL`
variable, so the resolved command is "/bin/bash". -/
theorem create_session_shell_and_geometry_witness :
    (create_session
        ⟨fun _ => .ok (), none, fun _ _ => .ok (), .ok (), .ok ()⟩
        ⟨[], [], [], false, false, false⟩ "s1" "/tmp" none).1 = .ok () ∧
      mapLookup (create_session
          ⟨fun _ => .ok (), none, fun _ _ => .ok (), .ok (), .ok ()⟩
          ⟨[], [], [], false, false, false⟩ "s1" "/tmp" none).2.meta "s1" =
        some ⟨"/tmp", some (resolveShell
          ⟨fun _ => .ok (), none, fun _ _ => .ok (), .ok (), .ok ()⟩ none)⟩ ∧
      mapLookup (create_session
          ⟨fun _ => .ok (), none, fun _ _ => .ok (), .ok (), .ok ()⟩
          ⟨[], [], [], false, false, false⟩ "s1" "/tmp" none).2.masters
        "s1" = some ⟨initialPtySize⟩ ∧
      resolveShell ⟨fun _ => .ok (), none, fun _ _ => .ok (), .ok (), .ok ()⟩
          none =
        (match (none : Option String) with
         | some s => s
         | none =>
           match (⟨fun _ => .ok (), none, fun _ _ => .ok (), .ok (),
              .ok ()⟩ : CreateEnv).shellVar with
           | some v => v
           | none => "/bin/bash") ∧
      initialPtySize = ⟨24, 80, 0, 0⟩ :=
  create_session_shell_and_geometry ⟨[], [], [], false, false, false⟩ "s1"
    "/tmp" none ⟨fun _ => .ok (), none, fun _ _ => .ok (), .ok (), .ok ()⟩
    rfl rfl rfl rfl rfl rfl rfl

/-- C8. For a registered session (with the locks acquirable), a successful
`write_to_session` appends exactly the given bytes, unmodified, to the
session's writer stream and flushes it, returning success precisely when both
the write and the flush succeed; if either native step fails, the call
returns an error. -/
theorem write_exact_bytes_then_flush (st : RegistryState) (id : String)
    (io : SessionIoState) (data : List UInt8) (wenv : WriteEnv)
    (hs : st.sessionsPoisoned = false)
    (hreg : mapLookup st.sessions id = some io)
    (hio : io.ioPoisoned = false) :
    ((wenv.ioWrite = .ok () ∧ wenv.ioFlush = .ok ()) →
      (write_to_session wenv st id data).1 = .ok () ∧
      mapLookup (write_to_session wenv st id data).2.sessions id =
        some { io with written := io.written ++ data }) ∧
    (isError wenv.ioWrite = true →
      isError (write_to_session wenv st id data).1 = true) ∧
    (isError wenv.ioFlush = true →
      isError (write_to_session wenv st id data).1 = true) := by
  refine ⟨?_, ?_, ?_⟩
  · rintro ⟨h1, h2⟩
    constructor
    · simp [write_to_session, hs, hreg, hio, h1, h2]
    · simp [write_to_session, hs, hreg, hio, h1, h2, mapLookup_insert_self]
  · intro hW
    rcases hWe : wenv.ioWrite with e | u
    · simp [write_to_session, hs, hreg, hio, hWe, isError]
    · rw [hWe] at hW
      simp [isError] at hW
  · intro hF
    rcases hFe : wenv.ioFlush with e | u
    · rcases hWe : wenv.ioWrite with e2 | u2
      · simp [write_to_session, hs, hreg, hio, hWe, isError]
      · simp [write_to_session, hs, hreg, hio, hWe, hFe, isError]
    · rw [hFe] at hF
      simp [isError] at hF

/-- Witness for C8 at a concrete input: session "s1" whose stream already
holds one byte, written two further bytes with both native steps
succeeding. -/
theorem write_exact_bytes_then_flush_witness :
    (write_to_session ⟨.ok (), .ok ()⟩
        ⟨[("s1", ⟨[7], false⟩)], [], [], false, false, false⟩ "s1"
        [104, 105]).1 = .ok () ∧
      mapLookup (write_to_session ⟨.ok (), .ok ()⟩
          ⟨[("s1", ⟨[7], false⟩)], [], [], false, false, false⟩ "s1"
          [104, 105]).2.sessions "s1" = some ⟨[7] ++ [104, 105], false⟩ :=
  (write_exact_bytes_then_flush
    ⟨[("s1", ⟨[7], false⟩)], [], [], false, false, false⟩ "s1" ⟨[7], false⟩
    [104, 105] ⟨.ok (), .ok ()⟩ rfl rfl rfl).1 ⟨rfl, rfl⟩

/-- C4 counterexample. The claim says `list_sessions` is the only operation
that degrades to a default under lock failure while every other operation
surfaces the failure as an error.  Concretely false: on a registry whose
sessions and meta locks are poisoned but which does contain session "s1",
`session_exists` (type `bool`, `unwrap_or(false)`) answers the default
`false` and `get_session_info` (`.ok().and_then(...)`) answers the default
`none` — both degrade exactly as `list_sessions` does, with no error
surfaced. -/
theorem lock_degrade_not_unique_counterexample :
    session_exists ⟨[("s1", ⟨[], false⟩)], [("s1", ⟨"/tmp", none⟩)], [],
        true, true, false⟩ "s1" = false ∧
    get_session_info ⟨[("s1", ⟨[], false⟩)], [("s1", ⟨"/tmp", none⟩)], [],
        true, true, false⟩ "s1" = none ∧
    mapContains (⟨[("s1", ⟨[], false⟩)], [("s1", ⟨"/tmp", none⟩)], [],
        true, true, false⟩ : RegistryState).sessions "s1" = true ∧
    mapContains (⟨[("s1", ⟨[], false⟩)], [("s1", ⟨"/tmp", none⟩)], [],
        true, true, false⟩ : RegistryState).meta "s1" = true := by
  refine ⟨rfl, rfl, ?_, ?_⟩ <;> decide

/-- C4 amended. The three query operations whose return types carry no error
channel — `list_sessions`, `session_exists`, `get_session_info` — all degrade
to a default value (empty sequence, `false`, `none`) when their store's lock
cannot be acquired, while every Result-returning operation (`create_session`
once its native steps have succeeded, `write_to_session`,
`read_from_session`, `resize_session`, `kill_session`) surfaces the lock
failure as an error. -/
theorem lock_failure_surfacing_amended (st : RegistryState)
    (id cwd : String) (shell : Option String) (data : List UInt8)
    (cenv : CreateEnv) (wenv : WriteEnv) (renv : ReadEnv) (senv : ResizeEnv)
    (cols rows : Nat)
    (hopen : cenv.openPty initialPtySize = .ok ())
    (hspawn : cenv.spawn (resolveShell cenv shell) cwd = .ok ())
    (hr : cenv.cloneReader = .ok ())
    (hw : cenv.takeWriter = .ok ()) :
    (st.sessionsPoisoned = true →
      list_sessions st = [] ∧
      session_exists st id = false ∧
      isError (write_to_session wenv st id data).1 = true ∧
      isError (read_from_session renv st id).1 = true ∧
      isError (kill_session st id).1 = true ∧
      isError (create_session cenv st id cwd shell).1 = true) ∧
    (st.metaPoisoned = true → get_session_info st id = none) ∧
    (st.mastersPoisoned = true →
      isError (resize_session senv st id cols rows).1 = true) := by
  refine ⟨?_, ?_, ?_⟩
  · intro hp
    refine ⟨?_, ?_, ?_, ?_, ?_, ?_⟩
    · simp [list_sessions, hp]
    · simp [session_exists, hp]
    · simp [write_to_session, hp, isError]
    · simp [read_from_session, hp, isError]
    · simp [kill_session, hp, isError]
    · simp [create_session, hopen, hspawn, hr, hw, hp, isError]
  · intro hp
    simp [get_session_info, hp]
  · intro hp
    simp [resize_session, hp, isError]

/-- Witness for the amended C4 at a concrete input: a registry with all three
locks poisoned and an all-succeeding native environment. -/
theorem lock_failure_surfacing_amended_witness :
    list_sessions ⟨[], [], [], true, true, true⟩ = [] ∧
    session_exists ⟨[], [], [], true, true, true⟩ "s1" = false ∧
    isError (write_to_session ⟨.ok (), .ok ()⟩
      ⟨[], [], [], true, true, true⟩ "s1" [104]).1 = true ∧
    isError (read_from_session ⟨true, .ok []⟩
      ⟨[], [], [], true, true, true⟩ "s1").1 = true ∧
    isError (kill_session ⟨[], [], [], true, true, true⟩ "s1").1 = true ∧
    isError (create_session
      ⟨fun _ => .ok (), none, fun _ _ => .ok (), .ok (), .ok ()⟩
      ⟨[], [], [], true, true, true⟩ "s1" "/tmp" none).1 = true ∧
    get_session_info ⟨[], [], [], true, true, true⟩ "s1" = none ∧
    isError (resize_session ⟨.ok ()⟩ ⟨[], [], [], true, true, true⟩
      "s1" 120 40).1 = true :=
  have h := lock_failure_surfacing_amended ⟨[], [], [], true, true, true⟩
    "s1" "/tmp" none [104]
    ⟨fun _ => .ok (), none, fun _ _ => .ok (), .ok (), .ok ()⟩
    ⟨.ok (), .ok ()⟩ ⟨true, .ok []⟩ ⟨.ok ()⟩ 120 40 rfl rfl rfl rfl
  ⟨(h.1 rfl).1, (h.1 rfl).2.1, (h.1 rfl).2.2.1, (h.1 rfl).2.2.2.1,
    (h.1 rfl).2.2.2.2.1, (h.1 rfl).2.2.2.2.2, h.2.1 rfl, h.2.2 rfl⟩

/-- C9. With the locks acquirable, `kill_session a` is frame-preserving for
every other id `b`: b's entries in all three stores are unchanged, and b's
write, read and resize return the same result before and after killing a. -/
theorem kill_session_isolation (st : RegistryState) (a b : String)
    (data : List UInt8) (wenv : WriteEnv) (renv : ReadEnv) (senv : ResizeEnv)
    (cols rows : Nat) (hab : a ≠ b)
    (hs : st.sessionsPoisoned = false)
    (hm : st.metaPoisoned = false)
    (ha : st.mastersPoisoned = false) :
    mapLookup (kill_session st a).2.sessions b = mapLookup st.sessions b ∧
    mapLookup (kill_session st a).2.meta b = mapLookup st.meta b ∧
    mapLookup (kill_session st a).2.masters b = mapLookup st.masters b ∧
    (write_to_session wenv (kill_session st a).2 b data).1 =
      (write_to_session wenv st b data).1 ∧
    (read_from_session renv (kill_session st a).2 b).1 =
      (read_from_session renv st b).1 ∧
    (resize_session senv (kill_session st a).2 b cols rows).1 =
      (resize_session senv st b cols rows).1 := by
  have hb : b ≠ a := fun hc => hab hc.symm
  have hsess : mapLookup (mapRemove st.sessions a) b = mapLookup st.sessions b :=
    mapLookup_remove_ne _ _ _ hb
  have hmeta : mapLookup (mapRemove st.meta a) b = mapLookup st.meta b :=
    mapLookup_remove_ne _ _ _ hb
  have hmast : mapLookup (mapRemove st.masters a) b = mapLookup st.masters b :=
    mapLookup_remove_ne _ _ _ hb
  refine ⟨?_, ?_, ?_, ?_, ?_, ?_⟩
  · simp [kill_session, hs, hm, ha, hsess]
  · simp [kill_session, hs, hm, ha, hmeta]
  · simp [kill_session, hs, hm, ha, hmast]
  · rcases hlook : mapLookup st.sessions b with _ | io
    · simp [kill_session, write_to_session, hs, hm, ha, hsess, hlook]
    · rcases hW : wenv.ioWrite with e | u <;>
        rcases hF : wenv.ioFlush with e2 | u2 <;>
        by_cases hIo : io.ioPoisoned <;>
        simp [kill_session, write_to_session, hs, hm, ha, hsess, hlook,
          hW, hF, hIo]
  · rcases hlook : mapLookup st.sessions b with _ | io
    · simp [kill_session, read_from_session, hs, hm, ha, hsess, hlook]
    · rcases hR : renv.nativeRead with e | bs <;>
        by_cases hArr : renv.arrives <;>
        by_cases hIo : io.ioPoisoned <;>
        simp [kill_session, read_from_session, hs, hm, ha, hsess, hlook,
          hR, hArr, hIo]
  · rcases hlook : mapLookup st.masters b with _ | m
    · simp [kill_session, resize_session, hs, hm, ha, hmast, hlook]
    · rcases hRz : senv.nativeResize with e | u <;>
        simp [kill_session, resize_session, hs, hm, ha, hmast, hlook, hRz]

/-- Witness for C9 at a concrete input: a registry holding sessions "s1" and
"s2" in all three stores; killing "s1" leaves "s2" untouched. -/
theorem kill_session_isolation_witness :
    mapLookup (kill_session ⟨[("s1", ⟨[], false⟩), ("s2", ⟨[], false⟩)],
        [("s1", ⟨"/tmp", none⟩), ("s2", ⟨"/tmp", none⟩)],
        [("s1", ⟨initialPtySize⟩), ("s2", ⟨initialPtySize⟩)],
        false, false, false⟩ "s1").2.sessions "s2" =
      mapLookup [("s1", (⟨[], false⟩ : SessionIoState)),
        ("s2", ⟨[], false⟩)] "s2" ∧
    mapLookup (kill_session ⟨[("s1", ⟨[], false⟩), ("s2", ⟨[], false⟩)],
        [("s1", ⟨"/tmp", none⟩), ("s2", ⟨"/tmp", none⟩)],
        [("s1", ⟨initialPtySize⟩), ("s2", ⟨initialPtySize⟩)],
        false, false, false⟩ "s1").2.meta "s2" =
      mapLookup [("s1", (⟨"/tmp", none⟩ : SessionMeta)),
        ("s2", ⟨"/tmp", none⟩)] "s2" ∧
    mapLookup (kill_session ⟨[("s1", ⟨[], false⟩), ("s2", ⟨[], false⟩)],
        [("s1", ⟨"/tmp", none⟩), ("s2", ⟨"/tmp", none⟩)],
        [("s1", ⟨initialPtySize⟩), ("s2", ⟨initialPtySize⟩)],
        false, false, false⟩ "s1").2.masters "s2" =
      mapLookup [("s1", (⟨initialPtySize⟩ : MasterState)),
        ("s2", ⟨initialPtySize⟩)] "s2" ∧
    (write_to_session ⟨.ok (), .ok ()⟩
        (kill_session ⟨[("s1", ⟨[], false⟩), ("s2", ⟨[], false⟩)],
          [("s1", ⟨"/tmp", none⟩), ("s2", ⟨"/tmp", none⟩)],
          [("s1", ⟨initialPtySize⟩), ("s2", ⟨initialPtySize⟩)],
          false, false, false⟩ "s1").2 "s2" [104]).1 =
      (write_to_session ⟨.ok (), .ok ()⟩
        ⟨[("s1", ⟨[], false⟩), ("s2", ⟨[], false⟩)],
          [("s1", ⟨"/tmp", none⟩), ("s2", ⟨"/tmp", none⟩)],
          [("s1", ⟨initialPtySize⟩), ("s2", ⟨initialPtySize⟩)],
          false, false, false⟩ "s2" [104]).1 ∧
    (read_from_session ⟨true, .ok [104]⟩
        (kill_session ⟨[("s1", ⟨[], false⟩), ("s2", ⟨[], false⟩)],
          [("s1", ⟨"/tmp", none⟩), ("s2", ⟨"/tmp", none⟩)],
          [("s1", ⟨initialPtySize⟩), ("s2", ⟨initialPtySize⟩)],
          false, false, false⟩ "s1").2 "s2").1 =
      (read_from_session ⟨true, .ok [104]⟩
        ⟨[("s1", ⟨[], false⟩), ("s2", ⟨[], false⟩)],
          [("s1", ⟨"/tmp", none⟩), ("s2", ⟨"/tmp", none⟩)],
          [("s1", ⟨initialPtySize⟩), ("s2", ⟨initialPtySize⟩)],
          false, false, false⟩ "s2").1 ∧
    (resize_session ⟨.ok ()⟩
        (kill_session ⟨[("s1", ⟨[], false⟩), ("s2", ⟨[], false⟩)],
          [("s1", ⟨"/tmp", none⟩), ("s2", ⟨"/tmp", none⟩)],
          [("s1", ⟨initialPtySize⟩), ("s2", ⟨initialPtySize⟩)],
          false, false, false⟩ "s1").2 "s2" 120 40).1 =
      (resize_session ⟨.ok ()⟩
        ⟨[("s1", ⟨[], false⟩), ("s2", ⟨[], false⟩)],
          [("s1", ⟨"/tmp", none⟩), ("s2", ⟨"/tmp", none⟩)],
          [("s1", ⟨initialPtySize⟩), ("s2", ⟨initialPtySize⟩)],
          false, false, false⟩ "s2" 120 40).1 :=
  kill_session_isolation
    ⟨[("s1", ⟨[], false⟩), ("s2", ⟨[], false⟩)],
      [("s1", ⟨"/tmp", none⟩), ("s2", ⟨"/tmp", none⟩)],
      [("s1", ⟨initialPtySize⟩), ("s2", ⟨initialPtySize⟩)],
      false, false, false⟩ "s1" "s2" [104] ⟨.ok (), .ok ()⟩
    ⟨true, .ok [104]⟩ ⟨.ok ()⟩ 120 40 (by decide) rfl rfl rfl

/-- C10. When the sessions-store lock cannot be acquired (`unwrap_or(false)`),
`session_exists` answers `false` for every id — even one actually present in
the store — so a `false` answer does not distinguish an absent session from
an unavailable registry. -/
theorem session_exists_false_on_lock_failure (st : RegistryState)
    (id : String) (hp : st.sessionsPoisoned = true) :
    session_exists st id = false := by
  simp [session_exists, hp]

/-- Witness for C10 at a concrete input: a poisoned registry that does contain
"s1" still answers `false`. -/
theorem session_exists_false_on_lock_failure_witness :
    session_exists ⟨[("s1", ⟨[], false⟩)], [], [], true, false, false⟩
      "s1" = false :=
  session_exists_false_on_lock_failure
    ⟨[("s1", ⟨[], false⟩)], [], [], true, false, false⟩ "s1" rfl

end PtyManager
